import Mathlib

/-!
Verification of the offline wheel-download driver (`download_wheels.py`).

The Python source is shallowly embedded below.  Pure string manipulation is
translated to Lean functions over `String` (working on the underlying
character list `String.data`, which matches Python's character-sequence
semantics for the ASCII inputs involved).  The effectful parts — the
`pip download` subprocess, `os.makedirs`, file reads — are modelled by
explicit oracle records (`AttemptEnv`, `MainEnv`) describing what the outside
world does on each call; the functions return explicit result records holding
everything the script observes or mutates: the `success` flag, the durations
appended to the global `pip_call_times` list, the log records emitted, the
lines written to `installation-instructions.bat`, and the promotion copies.
-/

/-! ## Log records

Severities of the `logging` calls that the script performs. -/

inductive Severity where
  | debug
  | info
  | warning
  | error
deriving DecidableEq, Repr

instance : BEq Severity := ⟨fun a b => decide (a = b)⟩

/-- One emitted log record: a severity and the message text (abridged to the
fixed part of the corresponding f-string in the source). -/
structure LogEvent where
  sev : Severity
  msg : String
deriving DecidableEq, Repr

/-! ## String helpers embedding the Python string operations -/

/-- Embeds Python `str.strip()`: remove leading and trailing whitespace. -/
def pyStrip (s : String) : String :=
  ⟨((s.data.dropWhile Char.isWhitespace).reverse.dropWhile Char.isWhitespace).reverse⟩

/-- Embeds Python `s.startswith(p)`: the first `len(p)` characters equal `p`. -/
def pyStartsWith (s p : String) : Bool :=
  s.data.take p.data.length == p.data

/-- The character class of the regex `[a-zA-Z0-9_-]` (ASCII letters, digits,
underscore, hyphen). -/
def keepChar (c : Char) : Bool :=
  c.isAlpha || c.isDigit || c == '_' || c == '-'

/-- Embeds `re.sub(r'[^a-zA-Z0-9_-]', '', name)` (source lines 50 and 224):
delete every character outside the class `[a-zA-Z0-9_-]`. -/
def pySanitize (s : String) : String :=
  ⟨s.data.filter keepChar⟩

/-- A version-constraint operator character, the class of
`re.split(r'[<>=!~]', package_spec)` (source line 123). -/
def isSpecSep (c : Char) : Bool :=
  c == '<' || c == '>' || c == '=' || c == '!' || c == '~'

/-- Embeds `re.split(r'[<>=!~]', package_spec)[0].strip()` (source line 123):
everything before the first constraint-operator character, stripped. -/
def bareNameOf (spec : String) : String :=
  pyStrip ⟨spec.data.takeWhile (fun c => !isSpecSep c)⟩

/-- Embeds `os.path.join(a, b)` for a relative second component (POSIX
semantics, as used at source lines 52 and 225). -/
def pathJoin (a b : String) : String :=
  if a = "" then b
  else if a.data.getLast? = some '/' then a ++ b
  else a ++ "/" ++ b

/-- The prefix of the character list that precedes the first occurrence of
the two-character inline-comment marker `" #"`; `none` when the marker does
not occur.  This is the character-level content of Python's
`' #' in s` test and `s.split(' #', 1)[0]` (source line 318). -/
def cutInline : List Char → Option (List Char)
  | ' ' :: '#' :: _ => some []
  | c :: rest => (cutInline rest).map (fun pre => c :: pre)
  | [] => none

/-- Embeds source line 318: when `' #'` occurs in the line, keep only the part
before its first occurrence and strip it again; otherwise leave the line. -/
def dropInlineComment (s : String) : String :=
  match cutInline s.data with
  | some pre => pyStrip ⟨pre⟩
  | none => s

/-- Embeds the per-line filter of source lines 315–321: strip; drop empty
lines and `#` comment lines; truncate at a mid-line `" #"` and re-strip; drop
lines that became empty; drop option lines beginning with `-`.  Returns the
surviving specifier, or `none` when the line is filtered out. -/
def processLine (line : String) : Option String :=
  let s := pyStrip line
  if s = "" || pyStartsWith s "#" then none
  else
    let s := dropInlineComment s
    if s = "" then none
    else if pyStartsWith s "-" then none
    else some s

/-- Embeds the accumulation loop of source lines 314–321: walk the raw lines
in order, appending each surviving specifier to `valid_package_lines`. -/
def collectValidLines : List String → List String → List String
  | [], acc => acc
  | l :: ls, acc =>
      match processLine l with
      | some s => collectValidLines ls (acc ++ [s])
      | none => collectValidLines ls acc

/-- `valid_package_lines` as computed by `main` from the raw file lines. -/
def validPackageLines (lines : List String) : List String :=
  collectValidLines lines []

/-! ## Strategy generation (source lines 130–175) -/

/-- Embeds `var_python_version.replace('.', '')` (source line 149): remove
every `'.'` character. -/
def stripDots (v : String) : String :=
  ⟨v.data.filter (fun c => c != '.')⟩

/-- Embeds the dynamic ABI derivation of source lines 147–155:
a token containing `'.'` yields `"cp" ++` the dot-stripped token; a
single-character token yields `"abi" ++` the token; anything else yields
`"cp" ++` the token. -/
def deriveAbi (v : String) : String :=
  if v.data.contains '.' then "cp" ++ stripDots v
  else if v.length = 1 then "abi" ++ v
  else "cp" ++ v

/-- Embeds `specific_abis = ['none', abi_specific]` (source line 157). -/
def abiCandidates (v : String) : List String :=
  ["none", deriveAbi v]

/-- Embeds the strategy literal of source line 170: the nine-element flag
list for one combination. -/
def mkStrategy (p v a i b : String) : List String :=
  ["--platform", p, "--python-version", v, "--abi", a, "--implementation", i, b]

/-- Embeds the nested loops of source lines 144–171: the cross-product of
platforms, python versions, the two ABI candidates per version,
implementations and binary flags, skipping a `"py"` implementation paired
with an ABI tag beginning with `"cp"` or `"abi"` (source line 163). -/
def innerStrategies (platforms versions impls binaries : List String) :
    List (List String) :=
  platforms.flatMap fun p =>
    versions.flatMap fun v =>
      (abiCandidates v).flatMap fun a =>
        impls.flatMap fun i =>
          if i == "py" && (pyStartsWith a "cp" || pyStartsWith a "abi") then []
          else binaries.map fun b => mkStrategy p v a i b

/-- Embeds source lines 142–175: the dynamically built strategy list followed
by the trailing empty list `[]` that stands for the current-environment
default attempt (source line 174). -/
def buildStrategies (platforms versions impls binaries : List String) :
    List (List String) :=
  innerStrategies platforms versions impls binaries ++ [[]]

/-- `var_platforms` (source lines 131–132). -/
def srcPlatforms : List String := ["any", "win_amd64"]

/-- `var_python_versions` (source line 134). -/
def srcPythonVersions : List String :=
  ["3.13", "3.12", "3.11", "3", "3.14", "3.15", "3.16"]

/-- `var_implementations` (source line 136). -/
def srcImplementations : List String := ["cp", "py"]

/-- `var_binary_types` (source line 137). -/
def srcBinaryTypes : List String := ["--only-binary=:all:"]

/-- `download_strategies` as built with the hardcoded configuration of
`download_package_with_deps` (source lines 142–175). -/
def download_strategies : List (List String) :=
  buildStrategies srcPlatforms srcPythonVersions srcImplementations srcBinaryTypes

/-- `DOWNLOAD_ALL_VERSIONS` (source line 139). -/
def DOWNLOAD_ALL_VERSIONS : Bool := true

/-- `COPY_FIRST_SET_TO_PARENT_DIRECTORY` (source line 140). -/
def COPY_FIRST_SET_TO_PARENT_DIRECTORY : Bool := false

/-! ## The pip invocation helper `run_pip_download_deps` (source lines 28–106) -/

/-- What the `subprocess.run` of source line 77 does: the process runs and
exits with a return code, or `pip` is not on the PATH (`FileNotFoundError`,
source line 91), or some other exception is raised (source line 97). -/
inductive PipInvokeResult where
  | exited (returncode : Int)
  | toolNotFound
  | raised (msg : String)
deriving DecidableEq, Repr

/-- Oracle for one call of `run_pip_download_deps`: whether
`os.makedirs(package_subdir, exist_ok=True)` succeeds (source line 56), what
the subprocess invocation does, and the wall-clock duration
`end_time_pip - start_time_pip` that the call would measure
(source lines 101–102, modelled as a natural number of time units). -/
structure AttemptEnv where
  mkdirOk : Bool
  invoke : PipInvokeResult
  elapsed : Nat
deriving Repr

/-- `package_subdir` as computed at source lines 50–52: the download root
joined with the sanitized original package name. -/
def pipPackageSubdir (downloadDir originalPackageName : String) : String :=
  pathJoin downloadDir (pySanitize originalPackageName)

/-- Everything one call of `run_pip_download_deps` observes or mutates:
the returned success flag, the durations appended to the global
`pip_call_times` (source line 103), the log records emitted, and the
`package_subdir` it computed. -/
structure PipCallResult where
  success : Bool
  recordedTimes : List Nat
  events : List LogEvent
  subdir : String
deriving Repr

/-- Embeds `run_pip_download_deps` (source lines 28–106).  When `makedirs`
fails the function logs an error and returns `False` at once (source lines
58–61), before the `try/finally` block — so that call appends nothing to
`pip_call_times`.  Otherwise the subprocess outcome is classified (exit code
zero means success, source line 79) and the `finally` block appends the
elapsed duration on every path through the `try` (source lines 100–103). -/
def run_pip_download_deps (packageSpec originalPackageName downloadDir : String)
    (env : AttemptEnv) : PipCallResult :=
  let subdir := pipPackageSubdir downloadDir originalPackageName
  if env.mkdirOk = false then
    { success := false
      recordedTimes := []
      events := [⟨Severity.error, "Failed to create subdirectory " ++ subdir⟩]
      subdir := subdir }
  else
    let mkEv : LogEvent := ⟨Severity.debug, "Ensured subdirectory exists: " ++ subdir⟩
    let cmdEv : LogEvent := ⟨Severity.debug, "Full command for " ++ packageSpec⟩
    let durEv : LogEvent := ⟨Severity.debug, "Pip call duration"⟩
    match env.invoke with
    | PipInvokeResult.exited rc =>
        if rc == 0 then
          { success := true
            recordedTimes := [env.elapsed]
            events := [mkEv, cmdEv, ⟨Severity.debug, "Pip exited cleanly"⟩, durEv]
            subdir := subdir }
        else
          { success := false
            recordedTimes := [env.elapsed]
            events := [mkEv, cmdEv, ⟨Severity.warning, "Pip command failed"⟩, durEv]
            subdir := subdir }
    | PipInvokeResult.toolNotFound =>
        { success := false
          recordedTimes := [env.elapsed]
          events := [mkEv, cmdEv, ⟨Severity.error, "ERROR: Cannot find pip"⟩, durEv]
          subdir := subdir }
    | PipInvokeResult.raised m =>
        { success := false
          recordedTimes := [env.elapsed]
          events := [mkEv, cmdEv, ⟨Severity.error, "ERROR: An unexpected error occurred: " ++ m⟩, durEv]
          subdir := subdir }

/-- The attempt succeeds: the subdirectory was created and pip exited 0. -/
def attemptSucceeds (e : AttemptEnv) : Bool :=
  e.mkdirOk && (match e.invoke with
    | PipInvokeResult.exited rc => rc == 0
    | _ => false)

/-! ## The driver `download_package_with_deps` (source lines 110–269) -/

/-- `known_dependencies` lookup (source lines 201–202): the override table
`{'pyautogui': 'pyautogui setuptools wheel'}` consulted with the lowercased
bare name, defaulting to the original spec. -/
def knownDepSpec (bareName packageSpec : String) : String :=
  if bareName.toLower = "pyautogui" then "pyautogui setuptools wheel" else packageSpec

/-- The destination subdirectory path recomputed by the driver for the
install-instruction record (source lines 224–225): the download root joined
with the sanitized bare name. -/
def instrSubdirPath (downloadDir packageSpec : String) : String :=
  pathJoin downloadDir (pySanitize (bareNameOf packageSpec))

/-- The mutable state of the strategy loop in `download_package_with_deps`:
`download_success`, the `attempt` counter, `attempt_success_count`, the
accumulated `pip_call_times` entries, the install-instruction blocks written
(attempt number, original spec, subdirectory path; source lines 228–231),
the attempt numbers at which the promotion copy ran (source lines 237–252),
and the log records emitted so far. -/
structure DriverState where
  downloadSuccess : Bool
  attempt : Nat
  attemptSuccessCount : Nat
  recordedTimes : List Nat
  instrWrites : List (Nat × String × String)
  copyRuns : List Nat
  events : List LogEvent
deriving Repr

/-- The loop state before the first iteration (source lines 125–128),
after the initial `Processing` log line (source line 124). -/
def initDriverState (packageSpec : String) : DriverState :=
  { downloadSuccess := false
    attempt := 0
    attemptSuccessCount := 0
    recordedTimes := []
    instrWrites := []
    copyRuns := []
    events := [⟨Severity.info, "Processing: " ++ bareNameOf packageSpec ++ " Full spec: " ++ packageSpec⟩] }

/-- The body of one guarded iteration of the strategy loop (source lines
194–260): bump the `attempt` counter, call `run_pip_download_deps` with the
override spec, and on success bump `attempt_success_count`; when that counter
has just become 1 the install-instruction block is written (source lines
223–231) and, if enabled, the promotion copy runs (source lines 237–252).
Returns the updated state paired with this attempt's success flag (used by
the `break` decision of source lines 254–257). -/
def attemptStep (copyFlag : Bool) (packageSpec downloadDir : String)
    (envs : Nat → AttemptEnv) (st : DriverState) : DriverState × Bool :=
  let a := st.attempt + 1
  let bare := bareNameOf packageSpec
  let r := run_pip_download_deps (knownDepSpec bare packageSpec) bare
    downloadDir (envs st.attempt)
  let st1 : DriverState :=
    { st with
      attempt := a
      recordedTimes := st.recordedTimes ++ r.recordedTimes
      events := st.events ++
        [⟨Severity.info, "Attempt: " ++ packageSpec⟩] ++ r.events }
  if r.success then
    let cnt := st1.attemptSuccessCount + 1
    let st2 : DriverState :=
      { st1 with
        downloadSuccess := true
        attemptSuccessCount := cnt
        events := st1.events ++ [⟨Severity.info, "Attempt SUCCEEDED"⟩] }
    let st3 : DriverState :=
      if cnt = 1 then
        { st2 with
          instrWrites := st2.instrWrites ++
            [(a, packageSpec, instrSubdirPath downloadDir packageSpec)]
          copyRuns := if copyFlag then st2.copyRuns ++ [a] else st2.copyRuns }
      else st2
    (st3, true)
  else
    ({ st1 with events := st1.events ++ [⟨Severity.warning, "Attempt FAILED"⟩] }, false)

/-- Embeds the strategy loop of source lines 191–260.  `dlAll` is
`DOWNLOAD_ALL_VERSIONS`, `copyFlag` is `COPY_FIRST_SET_TO_PARENT_DIRECTORY`
(in-function constants in the source, lines 139–140, taken as parameters here
so the two policy settings can both be stated).  The oracle `envs` gives the
outside-world behaviour of the pip call made by the iteration whose `attempt`
counter value is `i + 1` as `envs i`.  Per strategy: when
`not download_success or DOWNLOAD_ALL_VERSIONS` holds (source line 193) the
iteration body `attemptStep` runs; when `DOWNLOAD_ALL_VERSIONS` is false the
loop breaks right after the first successful attempt (source lines 254–257);
a guarded-out iteration moves to the next strategy without attempting. -/
def driverLoop (dlAll copyFlag : Bool) (packageSpec downloadDir : String)
    (envs : Nat → AttemptEnv) : List (List String) → DriverState → DriverState
  | [], st => st
  | _strat :: rest, st =>
      if !st.downloadSuccess || dlAll then
        let p := attemptStep copyFlag packageSpec downloadDir envs st
        if p.2 && !dlAll then p.1
        else driverLoop dlAll copyFlag packageSpec downloadDir envs rest p.1
      else driverLoop dlAll copyFlag packageSpec downloadDir envs rest st

/-- What one call of `download_package_with_deps` observes and produces: the
final loop state, and the strategy sequence the call itself constructed
(source lines 142–175 run inside the function body, once per call). -/
structure DriverOutput where
  state : DriverState
  strategiesBuilt : List (List String)
deriving Repr

/-- Embeds `download_package_with_deps` (source lines 110–269): build the
strategy list (source lines 142–175), run the strategy loop over it, and
emit the final per-package log line (info on success, error after all
attempts failed, source lines 264–267). -/
def download_package_with_deps (dlAll copyFlag : Bool)
    (packageSpec downloadDir : String) (envs : Nat → AttemptEnv) : DriverOutput :=
  let strategies :=
    buildStrategies srcPlatforms srcPythonVersions srcImplementations srcBinaryTypes
  let st := driverLoop dlAll copyFlag packageSpec downloadDir envs strategies
    (initDriverState packageSpec)
  let finalEv : LogEvent :=
    if st.downloadSuccess then ⟨Severity.info, "Successfully downloaded artifacts"⟩
    else ⟨Severity.error, "FAILED to download any suitable artifacts"⟩
  { state := { st with events := st.events ++ [finalEv] }
    strategiesBuilt := strategies }

/-! ## `main` (source lines 273–431) -/

/-- Oracle for one run of `main`: whether `os.path.isfile(requirements_file)`
holds (source line 298), whether creating the base download directory
succeeds (source line 303), the lines of the requirements file (`none` when
reading raises `IOError`, source lines 311–324), and the per-package,
per-attempt behaviour of the pip calls (`attemptEnvs i j` is the oracle for
attempt `j+1` of package number `i+1`). -/
structure MainEnv where
  reqFileExists : Bool
  mkdirBaseOk : Bool
  fileLines : Option (List String)
  attemptEnvs : Nat → Nat → AttemptEnv

/-- The observable outcome of a run of `main`: the process exit status,
whether the final summary was printed, the accumulated success/failure lists
(in input order), one entry per driver call holding the strategy sequence
that call built, and the global `pip_call_times` series. -/
structure RunResult where
  exitCode : Nat
  summaryPrinted : Bool
  successfulPackages : List String
  failedPackages : List String
  stratsBuilt : List (List (List String))
  pipCallTimes : List Nat

/-- Embeds the per-package loop of source lines 361–371: call
`download_package_with_deps` for each valid specifier in order, appending to
the success or failure list, and accumulate the driver outputs. -/
def processPackages (downloadDir : String) (envs : Nat → Nat → AttemptEnv) :
    List String → Nat →
    List String × List String × List (List (List String)) × List Nat
  | [], _ => ([], [], [], [])
  | spec :: rest, i =>
      let out := download_package_with_deps DOWNLOAD_ALL_VERSIONS
        COPY_FIRST_SET_TO_PARENT_DIRECTORY spec downloadDir (envs i)
      let tail := processPackages downloadDir envs rest (i + 1)
      (if out.state.downloadSuccess then spec :: tail.1 else tail.1,
       if out.state.downloadSuccess then tail.2.1 else spec :: tail.2.1,
       out.strategiesBuilt :: tail.2.2.1,
       out.state.recordedTimes ++ tail.2.2.2)

/-- Embeds `main` (source lines 273–431).  Pre-run checks in source order:
a missing requirements file exits 1 (source lines 298–300); a failed
`makedirs` of the base directory exits 1 (source lines 301–307); an `IOError`
while reading the file exits 1 (source lines 322–324).  Otherwise every valid
specifier is processed and the run falls through to the summary and exits 0
(source lines 391–431), regardless of how many packages failed. -/
def mainRun (downloadDir : String) (env : MainEnv) : RunResult :=
  if env.reqFileExists = false then
    { exitCode := 1, summaryPrinted := false, successfulPackages := []
      failedPackages := [], stratsBuilt := [], pipCallTimes := [] }
  else if env.mkdirBaseOk = false then
    { exitCode := 1, summaryPrinted := false, successfulPackages := []
      failedPackages := [], stratsBuilt := [], pipCallTimes := [] }
  else
    match env.fileLines with
    | none =>
        { exitCode := 1, summaryPrinted := false, successfulPackages := []
          failedPackages := [], stratsBuilt := [], pipCallTimes := [] }
    | some lines =>
        let valid := validPackageLines lines
        let acc := processPackages downloadDir env.attemptEnvs valid 0
        { exitCode := 0, summaryPrinted := true, successfulPackages := acc.1
          failedPackages := acc.2.1, stratsBuilt := acc.2.2.1
          pipCallTimes := acc.2.2.2 }

/-! ## Helper functions describing windows of the attempt oracle -/

/-- Whether some attempt with index in `[k, k+n)` succeeds. -/
def anySuccessFrom (envs : Nat → AttemptEnv) : Nat → Nat → Bool
  | _, 0 => false
  | k, n + 1 => attemptSucceeds (envs k) || anySuccessFrom envs (k + 1) n

/-- How many attempts with index in `[k, k+n)` succeed. -/
def successCountFrom (envs : Nat → AttemptEnv) : Nat → Nat → Nat
  | _, 0 => 0
  | k, n + 1 =>
      (if attemptSucceeds (envs k) then 1 else 0) + successCountFrom envs (k + 1) n

/-- The durations recorded over the attempts with index in `[k, k+n)`: one
entry per attempt whose `makedirs` succeeded, none for the others. -/
def timesFrom (envs : Nat → AttemptEnv) : Nat → Nat → List Nat
  | _, 0 => []
  | k, n + 1 =>
      (if (envs k).mkdirOk then [(envs k).elapsed] else []) ++ timesFrom envs (k + 1) n

/-- The index of the first successful attempt in `[k, k+n)`, if any. -/
def firstSuccessFrom (envs : Nat → AttemptEnv) : Nat → Nat → Option Nat
  | _, 0 => none
  | k, n + 1 =>
      if attemptSucceeds (envs k) then some k else firstSuccessFrom envs (k + 1) n

/-! ## Concrete oracles used to evaluate the embedding on closed inputs -/

/-- An oracle where the very first attempt's `makedirs` raises `OSError` and
every later attempt runs pip, which exits nonzero. -/
def c1BadEnvs : Nat → AttemptEnv := fun i =>
  if i = 0 then ⟨false, PipInvokeResult.exited 1, 5⟩
  else ⟨true, PipInvokeResult.exited 1, 5⟩

/-- An oracle where every attempt's `makedirs` succeeds and pip exits
nonzero. -/
def allFailEnvs : Nat → AttemptEnv := fun _ => ⟨true, PipInvokeResult.exited 1, 5⟩

/-- An oracle where every attempt succeeds (directory created, pip exits 0). -/
def allOkEnvs : Nat → AttemptEnv := fun _ => ⟨true, PipInvokeResult.exited 0, 7⟩

/-- An oracle where only the third attempt (index 2) succeeds. -/
def thirdOkEnvs : Nat → AttemptEnv := fun i =>
  if i = 2 then ⟨true, PipInvokeResult.exited 0, 7⟩
  else ⟨true, PipInvokeResult.exited 1, 5⟩

/-- A run oracle: requirements file present and readable with two valid
specifier lines, base directory creatable, every pip attempt failing. -/
def twoPackageEnv : MainEnv :=
  { reqFileExists := true
    mkdirBaseOk := true
    fileLines := some ["alpha", "beta"]
    attemptEnvs := fun _ _ => ⟨true, PipInvokeResult.exited 1, 5⟩ }

/-- A run oracle: file present with one valid specifier line, base directory
creatable, every pip attempt failing. -/
def oneFailingPackageEnv : MainEnv :=
  { reqFileExists := true
    mkdirBaseOk := true
    fileLines := some ["flask"]
    attemptEnvs := fun _ _ => ⟨true, PipInvokeResult.exited 1, 5⟩ }

/-! ## Basic lemmas about the pip call -/

theorem run_pip_success_eq (ps n d : String) (e : AttemptEnv) :
    (run_pip_download_deps ps n d e).success = attemptSucceeds e := by
  obtain ⟨mk, inv, el⟩ := e
  cases mk <;> cases inv <;>
    simp [run_pip_download_deps, attemptSucceeds] <;>
    split <;> simp_all

theorem run_pip_times_eq (ps n d : String) (e : AttemptEnv) :
    (run_pip_download_deps ps n d e).recordedTimes
      = if e.mkdirOk then [e.elapsed] else [] := by
  obtain ⟨mk, inv, el⟩ := e
  cases mk <;> cases inv <;>
    simp [run_pip_download_deps] <;>
    split <;> simp_all

theorem run_pip_subdir_eq (ps n d : String) (e : AttemptEnv) :
    (run_pip_download_deps ps n d e).subdir = pipPackageSubdir d n := by
  obtain ⟨mk, inv, el⟩ := e
  cases mk <;> cases inv <;>
    simp [run_pip_download_deps] <;>
    split <;> simp_all

theorem attemptSucceeds_mkdirOk {e : AttemptEnv} (h : attemptSucceeds e = true) :
    e.mkdirOk = true := by
  unfold attemptSucceeds at h
  exact (Bool.and_eq_true_iff.mp h).1

/-! ## Projection lemmas for one iteration of the strategy loop -/

theorem attemptStep_snd (copyFlag : Bool) (spec dir : String)
    (envs : Nat → AttemptEnv) (st : DriverState) :
    (attemptStep copyFlag spec dir envs st).2 = attemptSucceeds (envs st.attempt) := by
  simp only [attemptStep, run_pip_success_eq]
  cases attemptSucceeds (envs st.attempt) <;> simp

theorem attemptStep_attempt (copyFlag : Bool) (spec dir : String)
    (envs : Nat → AttemptEnv) (st : DriverState) :
    (attemptStep copyFlag spec dir envs st).1.attempt = st.attempt + 1 := by
  simp only [attemptStep, run_pip_success_eq]
  cases attemptSucceeds (envs st.attempt) <;> simp <;> split <;> simp

theorem attemptStep_downloadSuccess (copyFlag : Bool) (spec dir : String)
    (envs : Nat → AttemptEnv) (st : DriverState) :
    (attemptStep copyFlag spec dir envs st).1.downloadSuccess
      = (st.downloadSuccess || attemptSucceeds (envs st.attempt)) := by
  simp only [attemptStep, run_pip_success_eq]
  cases attemptSucceeds (envs st.attempt) <;> simp <;> split <;> simp

theorem attemptStep_count (copyFlag : Bool) (spec dir : String)
    (envs : Nat → AttemptEnv) (st : DriverState) :
    (attemptStep copyFlag spec dir envs st).1.attemptSuccessCount
      = st.attemptSuccessCount
        + (if attemptSucceeds (envs st.attempt) then 1 else 0) := by
  simp only [attemptStep, run_pip_success_eq]
  cases attemptSucceeds (envs st.attempt) <;> simp <;> split <;> simp

theorem attemptStep_recordedTimes (copyFlag : Bool) (spec dir : String)
    (envs : Nat → AttemptEnv) (st : DriverState) :
    (attemptStep copyFlag spec dir envs st).1.recordedTimes
      = st.recordedTimes
        ++ (if (envs st.attempt).mkdirOk then [(envs st.attempt).elapsed] else []) := by
  simp only [attemptStep, run_pip_success_eq, run_pip_times_eq]
  cases attemptSucceeds (envs st.attempt) <;> simp <;> split <;> simp

theorem attemptStep_instrWrites (copyFlag : Bool) (spec dir : String)
    (envs : Nat → AttemptEnv) (st : DriverState) :
    (attemptStep copyFlag spec dir envs st).1.instrWrites
      = st.instrWrites
        ++ (if attemptSucceeds (envs st.attempt) && (st.attemptSuccessCount == 0)
            then [(st.attempt + 1, spec, instrSubdirPath dir spec)] else []) := by
  simp only [attemptStep, run_pip_success_eq]
  cases hs : attemptSucceeds (envs st.attempt)
  · simp
  · simp only [if_pos rfl, Bool.true_and]
    by_cases hc : st.attemptSuccessCount = 0
    · simp [hc]
    · have : st.attemptSuccessCount + 1 ≠ 1 := by omega
      simp [hc, this]

theorem attemptStep_copyRuns (copyFlag : Bool) (spec dir : String)
    (envs : Nat → AttemptEnv) (st : DriverState) :
    (attemptStep copyFlag spec dir envs st).1.copyRuns
      = st.copyRuns
        ++ (if copyFlag && attemptSucceeds (envs st.attempt)
              && (st.attemptSuccessCount == 0)
            then [st.attempt + 1] else []) := by
  simp only [attemptStep, run_pip_success_eq]
  cases hs : attemptSucceeds (envs st.attempt)
  · simp
  · simp only [if_pos rfl, Bool.true_and, Bool.and_true]
    by_cases hc : st.attemptSuccessCount = 0
    · simp only [hc]
      by_cases hcp : copyFlag = true
      · simp [hcp]
      · simp [Bool.not_eq_true] at hcp
        simp [hcp]
    · have : st.attemptSuccessCount + 1 ≠ 1 := by omega
      simp [hc, this]

theorem driverLoop_char (copyFlag : Bool) (spec dir : String) (envs : Nat → AttemptEnv) :
    ∀ (l : List (List String)) (st : DriverState),
      (st.downloadSuccess = false ↔ st.attemptSuccessCount = 0) →
      (driverLoop true copyFlag spec dir envs l st).attempt = st.attempt + l.length ∧
      (driverLoop true copyFlag spec dir envs l st).downloadSuccess
          = (st.downloadSuccess || anySuccessFrom envs st.attempt l.length) ∧
      (driverLoop true copyFlag spec dir envs l st).attemptSuccessCount
          = st.attemptSuccessCount + successCountFrom envs st.attempt l.length ∧
      (driverLoop true copyFlag spec dir envs l st).recordedTimes
          = st.recordedTimes ++ timesFrom envs st.attempt l.length ∧
      (driverLoop true copyFlag spec dir envs l st).instrWrites
          = st.instrWrites ++
            (match (if st.attemptSuccessCount = 0
                    then firstSuccessFrom envs st.attempt l.length else none) with
             | some j => [(j + 1, spec, instrSubdirPath dir spec)]
             | none => []) ∧
      (driverLoop true copyFlag spec dir envs l st).copyRuns
          = st.copyRuns ++
            (match (if copyFlag && (st.attemptSuccessCount == 0)
                    then firstSuccessFrom envs st.attempt l.length else none) with
             | some j => [j + 1]
             | none => []) := by
  intro l
  induction l with
  | nil =>
      intro st _
      simp [driverLoop, anySuccessFrom, successCountFrom, timesFrom, firstSuccessFrom]
  | cons strat rest ih =>
      intro st hinv
      rw [driverLoop]
      simp only [Bool.or_true, Bool.not_true, Bool.and_false, Bool.false_eq_true,
        eq_self_iff_true, if_true, if_false]
      obtain ⟨h1, h2, h3, h4, h5, h6⟩ :=
        ih (attemptStep copyFlag spec dir envs st).1 (by
          rw [attemptStep_downloadSuccess, attemptStep_count]
          cases hs : attemptSucceeds (envs st.attempt)
          · simpa [hs] using hinv
          · simp [hs])
      rw [h1, h2, h3, h4, h5, h6, attemptStep_attempt, attemptStep_downloadSuccess,
        attemptStep_count, attemptStep_recordedTimes, attemptStep_instrWrites,
        attemptStep_copyRuns]
      cases hs : attemptSucceeds (envs st.attempt)
      · simp only [hs, List.length_cons, anySuccessFrom, successCountFrom, timesFrom,
          firstSuccessFrom, Bool.false_or, if_neg (by simp : ¬(false = true)),
          Bool.false_and, Bool.and_false]
        refine ⟨by omega, by simp, by omega, by simp [List.append_assoc], by simp, by simp⟩
      · have hmk := attemptSucceeds_mkdirOk hs
        simp only [hs, hmk, List.length_cons, anySuccessFrom, successCountFrom, timesFrom,
          firstSuccessFrom, if_true, Bool.true_or, Bool.or_true, Bool.true_and,
          List.append_assoc, Nat.succ_ne_zero, if_false, eq_self_iff_true]
        by_cases hc : st.attemptSuccessCount = 0
        · by_cases hcp : copyFlag = true
          · simp [hc, hcp]
            omega
          · simp only [Bool.not_eq_true] at hcp
            simp [hc, hcp]
            omega
        · have hcb : (st.attemptSuccessCount == 0) = false := by
            simp [hc]
          by_cases hcp : copyFlag = true
          · simp [hc, hcb, hcp]
            omega
          · simp only [Bool.not_eq_true] at hcp
            simp [hc, hcb, hcp]
            omega

theorem timesFrom_length (envs : Nat → AttemptEnv) :
    ∀ (n k : Nat), (∀ i, k ≤ i → i < k + n → (envs i).mkdirOk = true) →
      (timesFrom envs k n).length = n := by
  intro n
  induction n with
  | zero => intro k _; simp [timesFrom]
  | succ m ih =>
      intro k h
      have hk : (envs k).mkdirOk = true := h k (Nat.le_refl k) (by omega)
      have hrest := ih (k + 1) (fun i h1 h2 => h i (by omega) (by omega))
      simp [timesFrom, hk, hrest]

theorem anySuccessFrom_false (envs : Nat → AttemptEnv) :
    ∀ (n k : Nat), (∀ i, k ≤ i → i < k + n → attemptSucceeds (envs i) = false) →
      anySuccessFrom envs k n = false := by
  intro n
  induction n with
  | zero => intro k _; simp [anySuccessFrom]
  | succ m ih =>
      intro k h
      have hk := h k (Nat.le_refl k) (by omega)
      have hrest := ih (k + 1) (fun i h1 h2 => h i (by omega) (by omega))
      simp [anySuccessFrom, hk, hrest]

theorem successCountFrom_zero (envs : Nat → AttemptEnv) :
    ∀ (n k : Nat), (∀ i, k ≤ i → i < k + n → attemptSucceeds (envs i) = false) →
      successCountFrom envs k n = 0 := by
  intro n
  induction n with
  | zero => intro k _; simp [successCountFrom]
  | succ m ih =>
      intro k h
      have hk := h k (Nat.le_refl k) (by omega)
      have hrest := ih (k + 1) (fun i h1 h2 => h i (by omega) (by omega))
      simp [successCountFrom, hk, hrest]

/-- The final state of one driver call under the exhaustive policy, in terms
of the attempt oracle: every strategy is attempted; the success flag, the
success count and the recorded durations summarise the window `[0, total)`;
the install-instruction block and the (optional) promotion copy happen
exactly at the first successful attempt, when there is one. -/
theorem download_package_char (copyFlag : Bool) (spec dir : String)
    (envs : Nat → AttemptEnv) :
    (download_package_with_deps true copyFlag spec dir envs).state.attempt
        = download_strategies.length ∧
    (download_package_with_deps true copyFlag spec dir envs).state.downloadSuccess
        = anySuccessFrom envs 0 download_strategies.length ∧
    (download_package_with_deps true copyFlag spec dir envs).state.attemptSuccessCount
        = successCountFrom envs 0 download_strategies.length ∧
    (download_package_with_deps true copyFlag spec dir envs).state.recordedTimes
        = timesFrom envs 0 download_strategies.length ∧
    (download_package_with_deps true copyFlag spec dir envs).state.instrWrites
        = (match firstSuccessFrom envs 0 download_strategies.length with
           | some j => [(j + 1, spec, instrSubdirPath dir spec)]
           | none => []) ∧
    (download_package_with_deps true copyFlag spec dir envs).state.copyRuns
        = (match (if copyFlag then firstSuccessFrom envs 0 download_strategies.length
                  else none) with
           | some j => [j + 1]
           | none => []) := by
  obtain ⟨h1, h2, h3, h4, h5, h6⟩ :=
    driverLoop_char copyFlag spec dir envs download_strategies (initDriverState spec)
      (by simp [initDriverState])
  simp only [download_package_with_deps]
  rw [show buildStrategies srcPlatforms srcPythonVersions srcImplementations srcBinaryTypes
      = download_strategies from rfl]
  simp only [initDriverState] at h1 h2 h3 h4 h5 h6
  refine ⟨by simpa using h1, by simpa using h2, by simpa using h3, by simpa using h4,
    by simpa using h5, ?_⟩
  cases hcp : copyFlag
  · simpa [hcp] using h6
  · simpa [hcp] using h6

theorem mem_innerStrategies_length {platforms versions impls binaries : List String}
    {s : List String} (h : s ∈ innerStrategies platforms versions impls binaries) :
    s.length = 9 := by
  simp only [innerStrategies, List.mem_flatMap] at h
  obtain ⟨p, _, v, _, a, _, i, _, hmem⟩ := h
  cases hc : (i == "py" && (pyStartsWith a "cp" || pyStartsWith a "abi"))
  · rw [if_neg (by simp [hc])] at hmem
    obtain ⟨b, _, rfl⟩ := List.mem_map.mp hmem
    rfl
  · rw [if_pos hc] at hmem
    simp at hmem

theorem collectValidLines_eq (ls : List String) :
    ∀ acc, collectValidLines ls acc = acc ++ ls.filterMap processLine := by
  induction ls with
  | nil => intro acc; simp [collectValidLines]
  | cons l rest ih =>
      intro acc
      cases hp : processLine l
      · simp [collectValidLines, hp, ih]
      · simp [collectValidLines, hp, ih]

theorem driverLoop_instr_paths (dlAll copyFlag : Bool) (spec dir : String)
    (envs : Nat → AttemptEnv) :
    ∀ (l : List (List String)) (st : DriverState),
      (∀ w ∈ st.instrWrites, w.2.2 = instrSubdirPath dir spec) →
      ∀ w ∈ (driverLoop dlAll copyFlag spec dir envs l st).instrWrites,
        w.2.2 = instrSubdirPath dir spec := by
  intro l
  induction l with
  | nil => intro st h; simpa [driverLoop] using h
  | cons strat rest ih =>
      intro st h
      rw [driverLoop]
      by_cases hg : (!st.downloadSuccess || dlAll) = true
      · rw [if_pos hg]
        have hstep : ∀ w ∈ (attemptStep copyFlag spec dir envs st).1.instrWrites,
            w.2.2 = instrSubdirPath dir spec := by
          rw [attemptStep_instrWrites]
          intro w hw
          rcases List.mem_append.mp hw with hw | hw
          · exact h w hw
          · split at hw
            · simp only [List.mem_singleton] at hw
              subst hw
              rfl
            · simp at hw
        by_cases hb : ((attemptStep copyFlag spec dir envs st).2 && !dlAll) = true
        · rw [if_pos hb]
          exact hstep
        · rw [if_neg hb]
          exact ih _ hstep
      · rw [if_neg hg]
        exact ih _ h

theorem processPackages_strats (dir : String) (envs : Nat → Nat → AttemptEnv) :
    ∀ (l : List String) (i : Nat),
      (processPackages dir envs l i).2.2.1 = l.map (fun _ => download_strategies) := by
  intro l
  induction l with
  | nil => intro i; simp [processPackages]
  | cons spec rest ih =>
      intro i
      simp [processPackages, ih]
      rfl

/-- C3: for every configuration, including empty platform, version,
implementation or binary-flag lists, the generated strategy sequence ends
with exactly one empty constraint (the environment-default fallback), that
empty constraint never appears earlier, and the sequence is never empty. -/
theorem c3_fallback_strategy (platforms versions impls binaries : List String) :
    (buildStrategies platforms versions impls binaries).getLast? = some [] ∧
    List.count [] (buildStrategies platforms versions impls binaries) = 1 ∧
    buildStrategies platforms versions impls binaries ≠ [] := by
  refine ⟨List.getLast?_concat _, ?_, by simp [buildStrategies]⟩
  rw [buildStrategies, List.count_append]
  have h0 : List.count ([] : List String)
      (innerStrategies platforms versions impls binaries) = 0 := by
    rw [List.count_eq_zero]
    intro hmem
    have h9 := mem_innerStrategies_length hmem
    simp at h9
  rw [h0]
  simp

/-- C4: no emitted constraint pairs the pure-interpreter implementation tag
`"py"` with an ABI tag beginning with `"cp"` or `"abi"`; every such
combination is skipped during enumeration, for every configuration. -/
theorem c4_no_py_with_compiled_abi (platforms versions impls binaries : List String)
    (p v a b : String)
    (h : mkStrategy p v a "py" b ∈ buildStrategies platforms versions impls binaries) :
    pyStartsWith a "cp" = false ∧ pyStartsWith a "abi" = false := by
  rw [buildStrategies, List.mem_append] at h
  rcases h with h | h
  · simp only [innerStrategies, List.mem_flatMap] at h
    obtain ⟨p', _, v', _, a', _, i', _, hmem⟩ := h
    cases hc : (i' == "py" && (pyStartsWith a' "cp" || pyStartsWith a' "abi"))
    · rw [if_neg (by simp [hc])] at hmem
      obtain ⟨b', _, heq⟩ := List.mem_map.mp hmem
      simp only [mkStrategy, List.cons.injEq, true_and, and_true] at heq
      obtain ⟨hp, hv, ha, hi, hb⟩ := heq
      subst ha
      subst hi
      simpa using hc
    · rw [if_pos hc] at hmem
      simp at hmem
  · simp [mkStrategy] at h

theorem c4_witness :
    mkStrategy "any" "3.13" "none" "py" "--only-binary=:all:" ∈
      buildStrategies ["any"] ["3.13"] ["py"] ["--only-binary=:all:"] ∧
    pyStartsWith "none" "cp" = false ∧ pyStartsWith "none" "abi" = false :=
  ⟨by decide,
   c4_no_py_with_compiled_abi ["any"] ["3.13"] ["py"] ["--only-binary=:all:"]
     "any" "3.13" "none" "--only-binary=:all:" (by decide)⟩

/-- C5: the ABI tag derived from an interpreter-version token is
`"cp" ++` the separator-stripped token when the token contains `'.'`,
`"abi" ++` the token when the token is a single character, and
`"cp" ++` the token otherwise; the candidate list is exactly
`["none", derived-tag]` in that order; `"3.13"` yields `"cp313"` and `"3"`
yields `"abi3"`. -/
theorem c5_abi_derivation (v : String) :
    (v.data.contains '.' = true → deriveAbi v = "cp" ++ stripDots v) ∧
    (v.data.contains '.' = false → v.length = 1 → deriveAbi v = "abi" ++ v) ∧
    (v.data.contains '.' = false → v.length ≠ 1 → deriveAbi v = "cp" ++ v) ∧
    abiCandidates v = ["none", deriveAbi v] ∧
    deriveAbi "3.13" = "cp313" ∧
    deriveAbi "3" = "abi3" := by
  refine ⟨?_, ?_, ?_, rfl, by decide, by decide⟩
  · intro h
    simp only [deriveAbi]
    rw [if_pos h]
  · intro h h1
    simp only [deriveAbi]
    rw [if_neg (by rw [h]; exact Bool.false_ne_true), if_pos h1]
  · intro h h1
    simp only [deriveAbi]
    rw [if_neg (by rw [h]; exact Bool.false_ne_true), if_neg h1]

theorem c5_witness :
    ("3.13".data.contains '.' = true ∧ deriveAbi "3.13" = "cp" ++ stripDots "3.13") ∧
    ("3".data.contains '.' = false ∧ "3".length = 1 ∧ deriveAbi "3" = "abi" ++ "3") :=
  ⟨⟨by decide, (c5_abi_derivation "3.13").1 (by decide)⟩,
   ⟨by decide, by decide, (c5_abi_derivation "3").2.1 (by decide) (by decide)⟩⟩

/-- C6: the Requirement Source yields exactly the lines surviving the
per-line filter, in original order (the accumulation loop equals a
`filterMap` of the filter), and on the end-to-end scenario the survivors are
exactly the valid specifiers with inline comments stripped. -/
theorem c6_requirement_source (lines : List String) :
    validPackageLines lines = lines.filterMap processLine ∧
    validPackageLines ["requests==2.31.0", "", "# a comment", "-r other.txt", "flask"]
      = ["requests==2.31.0", "flask"] ∧
    processLine "flask  # web framework" = some "flask" ∧
    processLine "   " = none ∧
    processLine "# comment" = none ∧
    processLine "--index-url http://example" = none := by
  refine ⟨?_, by decide, by decide, by decide, by decide, by decide⟩
  rw [validPackageLines, collectValidLines_eq]
  simp

/-- C7: the run exits nonzero exactly when the requirements file is missing,
or unreadable, or the destination root cannot be created; in every other run
it exits zero after printing the summary, whatever the download outcomes. -/
theorem c7_exit_code (dir : String) (env : MainEnv) :
    ((mainRun dir env).exitCode ≠ 0 ↔
      (env.reqFileExists = false ∨ env.mkdirBaseOk = false ∨ env.fileLines = none)) ∧
    ((mainRun dir env).exitCode = 0 → (mainRun dir env).summaryPrinted = true) := by
  cases hr : env.reqFileExists
  · simp [mainRun, hr]
  · cases hm : env.mkdirBaseOk
    · simp [mainRun, hr, hm]
    · cases hf : env.fileLines
      · simp [mainRun, hr, hm, hf]
      · simp [mainRun, hr, hm, hf]

set_option maxRecDepth 100000 in
theorem c7_witness :
    (mainRun "wheels_offline" oneFailingPackageEnv).exitCode = 0 ∧
    (mainRun "wheels_offline" oneFailingPackageEnv).failedPackages = ["flask"] ∧
    (mainRun "wheels_offline" oneFailingPackageEnv).summaryPrinted = true :=
  ⟨by decide, by decide,
   (c7_exit_code "wheels_offline" oneFailingPackageEnv).2 (by decide)⟩

set_option maxRecDepth 100000 in
/-- C1 counterexample: with every attempt failing, the first because
`makedirs` raises and the rest because pip exits nonzero, all 43 strategies
are attempted, the package success flag is false, but only 42 durations are
recorded in `pip_call_times` — the `makedirs`-failure attempt returns before
the timing `finally` block, so fewer than `len(strategies)` outcomes carry a
recorded duration. -/
theorem c1_counterexample :
    (download_package_with_deps true false "requests==2.31.0" "wheels_offline"
        c1BadEnvs).state.downloadSuccess = false ∧
    (download_package_with_deps true false "requests==2.31.0" "wheels_offline"
        c1BadEnvs).state.attemptSuccessCount = 0 ∧
    (download_package_with_deps true false "requests==2.31.0" "wheels_offline"
        c1BadEnvs).state.attempt = download_strategies.length ∧
    (download_package_with_deps true false "requests==2.31.0" "wheels_offline"
        c1BadEnvs).state.recordedTimes.length = 42 ∧
    download_strategies.length = 43 :=
  ⟨by decide, by decide, by decide, by decide, by decide⟩

/-- C1 (amended): every strategy attempt whose destination subdirectory is
created successfully records its elapsed duration even on failure; when all
attempts fail with every `makedirs` succeeding, the success flag is false and
exactly `len(strategies)` durations are recorded. -/
theorem c1_all_fail_durations (copyFlag : Bool) (spec dir : String)
    (envs : Nat → AttemptEnv)
    (h : ∀ i, i < download_strategies.length →
      (envs i).mkdirOk = true ∧ attemptSucceeds (envs i) = false) :
    (download_package_with_deps true copyFlag spec dir envs).state.downloadSuccess
        = false ∧
    (download_package_with_deps true copyFlag spec dir envs).state.attemptSuccessCount
        = 0 ∧
    (download_package_with_deps true copyFlag spec dir envs).state.attempt
        = download_strategies.length ∧
    (download_package_with_deps true copyFlag spec dir envs).state.recordedTimes.length
        = download_strategies.length := by
  obtain ⟨h1, h2, h3, h4, _, _⟩ := download_package_char copyFlag spec dir envs
  have hfail : ∀ i, 0 ≤ i → i < 0 + download_strategies.length →
      attemptSucceeds (envs i) = false := fun i _ hi => (h i (by omega)).2
  have hmk : ∀ i, 0 ≤ i → i < 0 + download_strategies.length →
      (envs i).mkdirOk = true := fun i _ hi => (h i (by omega)).1
  refine ⟨?_, ?_, h1, ?_⟩
  · rw [h2, anySuccessFrom_false envs _ 0 hfail]
  · rw [h3, successCountFrom_zero envs _ 0 hfail]
  · rw [h4, timesFrom_length envs _ 0 hmk]

theorem c1_witness :
    (download_package_with_deps true false "flask" "wheels_offline"
        allFailEnvs).state.downloadSuccess = false ∧
    (download_package_with_deps true false "flask" "wheels_offline"
        allFailEnvs).state.attemptSuccessCount = 0 ∧
    (download_package_with_deps true false "flask" "wheels_offline"
        allFailEnvs).state.attempt = download_strategies.length ∧
    (download_package_with_deps true false "flask" "wheels_offline"
        allFailEnvs).state.recordedTimes.length = download_strategies.length :=
  c1_all_fail_durations false "flask" "wheels_offline" allFailEnvs
    (fun _ _ => ⟨rfl, rfl⟩)

/-- C2: under the exhaustive policy every strategy is attempted whatever the
earlier outcomes (the attempt counter reaches the full strategy count), the
install-instruction record is written exactly once, at the first successful
attempt, and never when no attempt succeeds; the promotion copy likewise runs
exactly once at the first success when enabled and never otherwise. -/
theorem c2_exhaustive_once (copyFlag : Bool) (spec dir : String)
    (envs : Nat → AttemptEnv) :
    (download_package_with_deps true copyFlag spec dir envs).state.attempt
        = download_strategies.length ∧
    (download_package_with_deps true copyFlag spec dir envs).state.downloadSuccess
        = anySuccessFrom envs 0 download_strategies.length ∧
    (download_package_with_deps true copyFlag spec dir envs).state.instrWrites
        = (match firstSuccessFrom envs 0 download_strategies.length with
           | some j => [(j + 1, spec, instrSubdirPath dir spec)]
           | none => []) ∧
    (download_package_with_deps true copyFlag spec dir envs).state.copyRuns
        = (match (if copyFlag then firstSuccessFrom envs 0 download_strategies.length
                  else none) with
           | some j => [j + 1]
           | none => []) := by
  obtain ⟨h1, h2, _, _, h5, h6⟩ := download_package_char copyFlag spec dir envs
  exact ⟨h1, h2, h5, h6⟩

set_option maxRecDepth 100000 in
theorem c2_witness :
    (download_package_with_deps true true "flask" "wheels_offline"
        thirdOkEnvs).state.attempt = 43 ∧
    (download_package_with_deps true true "flask" "wheels_offline"
        thirdOkEnvs).state.instrWrites = [(3, "flask", "wheels_offline/flask")] ∧
    (download_package_with_deps true true "flask" "wheels_offline"
        thirdOkEnvs).state.copyRuns = [3] := by
  obtain ⟨h1, _, h3, h4⟩ := c2_exhaustive_once true "flask" "wheels_offline" thirdOkEnvs
  refine ⟨?_, ?_, ?_⟩
  · rw [h1]
    decide
  · rw [h3]
    decide
  · rw [h4]
    decide

set_option maxRecDepth 100000 in
/-- C8 counterexample: in a run whose requirements file holds two valid
specifiers, the strategy sequence is constructed twice — once inside each
`download_package_with_deps` call — not once for the whole run. -/
theorem c8_counterexample :
    validPackageLines ["alpha", "beta"] = ["alpha", "beta"] ∧
    (mainRun "wheels_offline" twoPackageEnv).stratsBuilt.length = 2 ∧
    ¬ (mainRun "wheels_offline" twoPackageEnv).stratsBuilt.length = 1 :=
  ⟨by decide, by decide, by decide⟩

/-- C8 (amended): strategy generation runs once per requirement, not once per
run — each driver call rebuilds the list — but every rebuild yields the
identical sequence `download_strategies` (same constraints, same order, same
length), so all requirements are processed with the same strategy
sequence. -/
theorem c8_generation_per_requirement (dir : String) (env : MainEnv)
    (lines : List String) (h1 : env.reqFileExists = true)
    (h2 : env.mkdirBaseOk = true) (h3 : env.fileLines = some lines) :
    (mainRun dir env).stratsBuilt
      = (validPackageLines lines).map (fun _ => download_strategies) := by
  simp only [mainRun, h1, h2, h3]
  simp only [Bool.true_eq_false, if_false]
  exact processPackages_strats dir env.attemptEnvs _ 0

set_option maxRecDepth 100000 in
theorem c8_witness :
    (mainRun "wheels_offline" twoPackageEnv).stratsBuilt
      = (validPackageLines ["alpha", "beta"]).map (fun _ => download_strategies) :=
  c8_generation_per_requirement "wheels_offline" twoPackageEnv ["alpha", "beta"]
    rfl rfl rfl

set_option maxRecDepth 100000 in
/-- C9 counterexample: the distinct requirement names `"foo.bar"` and
`"foo!bar"` sanitize to the same string, both full driver runs download into
the same destination subdirectory, both succeed, and the combined log trace
of both runs contains only debug- and info-level records — no warning (or
error) about the collision is ever emitted, so the artifacts are merged
silently. -/
theorem c9_counterexample :
    ("foo.bar" : String) ≠ "foo!bar" ∧
    pySanitize "foo.bar" = pySanitize "foo!bar" ∧
    pipPackageSubdir "wheels_offline" "foo.bar"
      = pipPackageSubdir "wheels_offline" "foo!bar" ∧
    (download_package_with_deps true false "foo.bar" "wheels_offline"
        allOkEnvs).state.downloadSuccess = true ∧
    (download_package_with_deps true false "foo!bar" "wheels_offline"
        allOkEnvs).state.downloadSuccess = true ∧
    ((download_package_with_deps true false "foo.bar" "wheels_offline"
          allOkEnvs).state.events
        ++ (download_package_with_deps true false "foo!bar" "wheels_offline"
          allOkEnvs).state.events).all
      (fun e => e.sev == Severity.debug || e.sev == Severity.info) = true :=
  ⟨by decide, by decide, by decide, by decide, by decide, by decide⟩

/-- C9 (amended): whenever two requirement names have equal sanitized forms,
the pip helper computes the same destination subdirectory for both, and a
successful call emits only debug-level log records — no warning of any kind,
so a sanitization collision is silently merged. -/
theorem c9_collision_silent (n1 n2 dir : String) (e1 e2 : AttemptEnv)
    (hsan : pySanitize n1 = pySanitize n2)
    (h1 : e1.mkdirOk = true) (h2 : e1.invoke = PipInvokeResult.exited 0)
    (h3 : e2.mkdirOk = true) (h4 : e2.invoke = PipInvokeResult.exited 0) :
    (run_pip_download_deps n1 n1 dir e1).subdir
      = (run_pip_download_deps n2 n2 dir e2).subdir ∧
    (run_pip_download_deps n1 n1 dir e1).success = true ∧
    (run_pip_download_deps n2 n2 dir e2).success = true ∧
    (run_pip_download_deps n1 n1 dir e1).events.all
      (fun ev => ev.sev == Severity.debug) = true ∧
    (run_pip_download_deps n2 n2 dir e2).events.all
      (fun ev => ev.sev == Severity.debug) = true := by
  obtain ⟨mk1, inv1, el1⟩ := e1
  obtain ⟨mk2, inv2, el2⟩ := e2
  simp only at h1 h2 h3 h4
  subst h1 h2 h3 h4
  refine ⟨?_, ?_, ?_, ?_, ?_⟩
  · rw [run_pip_subdir_eq, run_pip_subdir_eq]
    simp [pipPackageSubdir, hsan]
  · simp [run_pip_download_deps]
  · simp [run_pip_download_deps]
  · simp [run_pip_download_deps]
  · simp [run_pip_download_deps]

theorem c9_witness :
    (run_pip_download_deps "foo.bar" "foo.bar" "wheels_offline"
        ⟨true, PipInvokeResult.exited 0, 7⟩).subdir
      = (run_pip_download_deps "foo!bar" "foo!bar" "wheels_offline"
        ⟨true, PipInvokeResult.exited 0, 7⟩).subdir ∧
    (run_pip_download_deps "foo.bar" "foo.bar" "wheels_offline"
        ⟨true, PipInvokeResult.exited 0, 7⟩).events.all
      (fun ev => ev.sev == Severity.debug) = true :=
  ⟨(c9_collision_silent "foo.bar" "foo!bar" "wheels_offline"
      ⟨true, PipInvokeResult.exited 0, 7⟩ ⟨true, PipInvokeResult.exited 0, 7⟩
      (by decide) rfl rfl rfl rfl).1,
   (c9_collision_silent "foo.bar" "foo!bar" "wheels_offline"
      ⟨true, PipInvokeResult.exited 0, 7⟩ ⟨true, PipInvokeResult.exited 0, 7⟩
      (by decide) rfl rfl rfl rfl).2.2.2.1⟩

/-- C10: the subdirectory path written into the install-instruction record
equals the subdirectory the pip helper downloads into — both are the
destination root joined with the identically sanitized bare name, computed
independently at source lines 224–225 and 50–52 — and every install record
written during a driver run carries exactly that path. -/
theorem c10_instr_path_eq_pip_dest (dlAll copyFlag : Bool) (spec dir : String)
    (envs : Nat → AttemptEnv) :
    instrSubdirPath dir spec = pipPackageSubdir dir (bareNameOf spec) ∧
    (∀ e : AttemptEnv,
      (run_pip_download_deps (knownDepSpec (bareNameOf spec) spec) (bareNameOf spec)
          dir e).subdir = pipPackageSubdir dir (bareNameOf spec)) ∧
    ∀ w ∈ (download_package_with_deps dlAll copyFlag spec dir envs).state.instrWrites,
      w.2.2 = pipPackageSubdir dir (bareNameOf spec) := by
  refine ⟨rfl, fun e => run_pip_subdir_eq _ _ _ _, ?_⟩
  intro w hw
  have hinstr : (download_package_with_deps dlAll copyFlag spec dir envs).state.instrWrites
      = (driverLoop dlAll copyFlag spec dir envs download_strategies
          (initDriverState spec)).instrWrites := rfl
  rw [hinstr] at hw
  have hpaths := driverLoop_instr_paths dlAll copyFlag spec dir envs
    download_strategies (initDriverState spec) (by simp [initDriverState]) w hw
  rw [hpaths]
  rfl

set_option maxRecDepth 100000 in
theorem c10_witness :
    instrSubdirPath "wheels_offline" "pkg==1.0"
      = pipPackageSubdir "wheels_offline" (bareNameOf "pkg==1.0") ∧
    (1, "pkg==1.0", instrSubdirPath "wheels_offline" "pkg==1.0").2.2
      = pipPackageSubdir "wheels_offline" (bareNameOf "pkg==1.0") :=
  ⟨(c10_instr_path_eq_pip_dest true false "pkg==1.0" "wheels_offline" allOkEnvs).1,
   (c10_instr_path_eq_pip_dest true false "pkg==1.0" "wheels_offline" allOkEnvs).2.2
     (1, "pkg==1.0", instrSubdirPath "wheels_offline" "pkg==1.0") (by decide)⟩
